import Mathlib

/-!
Shallow embedding of the `fp` package (Option, Result) and the
`slices.FilterMap` helpers of the stadio repository, together with
theorems checking the specification's claims against them.

Modelling conventions:
* Go's `error` interface values are `GoError`: either `nil` or a non-nil
  error carrying the string its `Error()` method returns.
* Go's `any` interface values are `GoAny`: `nil` or an opaque boxed value.
* The Go zero value of a type parameter `T` is `(default : T)` via an
  `Inhabited` instance; for `GoError` and `GoAny` the instance default is
  `nil`, matching Go's zero value for interface types.
* `panic` is modelled by `Except String`: `.error msg` is a panic whose
  message is `msg`, `.ok v` is a normal return of `v`.
* To reason about how often a callback is invoked, some methods also get a
  `Traced` variant: the identical control flow, with the callback made
  effectful by threading a call counter (`Nat`) through it, the way a
  counting test double would.
-/

/-- Go `error` interface value: `nil`, or a non-nil error whose `Error()`
method returns `msg`. -/
inductive GoError where
  | nil
  | mk (msg : String)
deriving DecidableEq

/-- The Go zero value of the interface type `error` is `nil`. -/
instance : Inhabited GoError := ⟨GoError.nil⟩

/-- Go `any` interface value: `nil`, or an opaque boxed value abstracted
by a tag. -/
inductive GoAny where
  | nil
  | box (tag : Nat)
deriving DecidableEq

/-- The Go zero value of the interface type `any` is `nil`. -/
instance : Inhabited GoAny := ⟨GoAny.nil⟩

namespace fp

/-- `Option[T]` struct of `fp/option.go`: a `value` field of type `T` and
an `isSome` flag. -/
structure Option (T : Type) where
  value : T
  isSome : Bool
deriving DecidableEq

/-- `Option.IsSome`: `return o.isSome`. -/
def Option.IsSome {T : Type} (o : Option T) : Bool :=
  o.isSome

/-- `Option.IsNone`: `return !o.isSome`. -/
def Option.IsNone {T : Type} (o : Option T) : Bool :=
  !o.isSome

/-- `Option.Unwrap`: `return o.value, o.isSome`. -/
def Option.Unwrap {T : Type} (o : Option T) : T × Bool :=
  (o.value, o.isSome)

/-- `Option.UnwrapOr`: contained value if Some, else the given default. -/
def Option.UnwrapOr {T : Type} (o : Option T) (value : T) : T :=
  if o.isSome then o.value else value

/-- `Option.UnwrapOrElse`: contained value if Some, else `fn()`. -/
def Option.UnwrapOrElse {T : Type} (o : Option T) (fn : Unit → T) : T :=
  if o.isSome then o.value else fn ()

/-- `Option.UnwrapUnsafe`: panics with message "option is none" when the
option is None, else returns the contained value. -/
def Option.UnwrapUnsafe {T : Type} (o : Option T) : Except String T :=
  if o.isSome then Except.ok o.value else Except.error ("option is none")

/-- `Some[T](t)`: the struct with `value: t, isSome: true`. -/
def Some {T : Type} (t : T) : Option T :=
  { value := t, isSome := true }

/-- `None[T]()`: the zero struct literal, i.e. zero value and
`isSome: false`. -/
def None (T : Type) [Inhabited T] : Option T :=
  { value := default, isSome := false }

/-- `Option.Map`: `Some(fn(o.value))` if Some, else the receiver itself. -/
def Option.Map {T : Type} (o : Option T) (fn : T → T) : Option T :=
  if o.isSome then Some (fn o.value) else o

/-- The Go zero value of the `Option[T]` struct: every field at its zero
value. -/
def Option.zeroValue (T : Type) [Inhabited T] : Option T :=
  { value := default, isSome := false }

/-- `Result[T]` struct: a `value` field of type `T` and an `err` field of
Go type `error`. -/
structure Result (T : Type) where
  value : T
  err : GoError
deriving DecidableEq

/-- `Result.IsOk`: `return r.err == nil`. -/
def Result.IsOk {T : Type} (r : Result T) : Bool :=
  r.err == GoError.nil

/-- `Result.IsErr`: `return r.err != nil`. -/
def Result.IsErr {T : Type} (r : Result T) : Bool :=
  r.err != GoError.nil

/-- `Result.Unwrap`: `return r.value, r.err`. -/
def Result.Unwrap {T : Type} (r : Result T) : T × GoError :=
  (r.value, r.err)

/-- `Result.UnwrapUnsafe`: panics with "result is error: " + err.Error()
when `r.err != nil`, else returns the contained value. -/
def Result.UnwrapUnsafe {T : Type} (r : Result T) : Except String T :=
  match r.err with
  | GoError.mk msg => Except.error ("result is error: " ++ msg)
  | GoError.nil => Except.ok r.value

/-- `Result.UnwrapOr`: contained value if Ok, else the given default. -/
def Result.UnwrapOr {T : Type} (r : Result T) (other : T) : T :=
  if r.err == GoError.nil then r.value else other

/-- `Result.UnwrapOrElse`: contained value if Ok, else `fn()`. -/
def Result.UnwrapOrElse {T : Type} (r : Result T) (fn : Unit → T) : T :=
  if r.err == GoError.nil then r.value else fn ()

/-- `Ok[T](v)`: the struct with `value: v, err: nil`. -/
def Ok {T : Type} (v : T) : Result T :=
  { value := v, err := GoError.nil }

/-- `OkZero[T]()`: the struct with zero value and `err: nil`. -/
def OkZero (T : Type) [Inhabited T] : Result T :=
  { value := default, err := GoError.nil }

/-- `Err[T](err)`: the struct with zero value and the given `err`. -/
def Err (T : Type) [Inhabited T] (err : GoError) : Result T :=
  { value := default, err := err }

/-- `Result.Map`: `Ok(fn(r.value))` if Ok, else the receiver itself. -/
def Result.Map {T : Type} (r : Result T) (fn : T → T) : Result T :=
  if r.err == GoError.nil then Ok (fn r.value) else r

/-- `Result.MapOr`: `Ok(fn(r.value))` if Ok, else `Ok(value)`. -/
def Result.MapOr {T : Type} (r : Result T) (value : T) (fn : T → T) : Result T :=
  if r.err == GoError.nil then Ok (fn r.value) else Ok value

/-- `Result.MapOrElse`: `Ok(handleOk(r.value))` if Ok, else
`Ok(handleErr(r.err))`. -/
def Result.MapOrElse {T : Type} (r : Result T) (handleErr : GoError → T)
    (handleOk : T → T) : Result T :=
  if r.err == GoError.nil then Ok (handleOk r.value) else Ok (handleErr r.err)

/-- `var OkAny = Result[any] zero struct`: value is `any`'s zero (nil) and
err is nil. -/
def OkAny : Result GoAny :=
  { value := GoAny.nil, err := GoError.nil }

/-- The Go zero value of the `Result[T]` struct: every field at its zero
value. -/
def Result.zeroValue (T : Type) [Inhabited T] : Result T :=
  { value := default, err := GoError.nil }

/-- `Option.OkOr`: `Ok(o.value)` if Some, else `Err(err)`. -/
def Option.OkOr {T : Type} [Inhabited T] (o : Option T) (err : GoError) : Result T :=
  if o.isSome then Ok o.value else Err T err

/-- Counting test double for a nullary producer `fn func() T`: running it
returns `fn()` and increments the call counter. -/
def traceCall {T : Type} (p : Unit → T) : Nat → T × Nat :=
  fun n => (p (), n + 1)

/-- Counting test double for a unary callback `fn func(T) T`: running it
on `t` returns `fn(t)` and increments the call counter. -/
def traceCall1 {T : Type} (f : T → T) : T → Nat → T × Nat :=
  fun t n => (f t, n + 1)

/-- `Option.UnwrapOrElse` with an effectful producer threading a call
counter: same control flow as the source, where the producer is run only
in the `return fn()` branch. -/
def Option.UnwrapOrElseTraced {T : Type} (o : Option T) (fn : Nat → T × Nat)
    (n : Nat) : T × Nat :=
  if o.isSome then (o.value, n) else fn n

/-- `Result.UnwrapOrElse` with an effectful producer threading a call
counter: same control flow as the source. -/
def Result.UnwrapOrElseTraced {T : Type} (r : Result T) (fn : Nat → T × Nat)
    (n : Nat) : T × Nat :=
  if r.err == GoError.nil then (r.value, n) else fn n

/-- `Option.Map` with an effectful callback threading a call counter: same
control flow as the source, where `fn` is run only in the Some branch. -/
def Option.MapTraced {T : Type} (o : Option T) (fn : T → Nat → T × Nat)
    (n : Nat) : Option T × Nat :=
  if o.isSome then
    let p := fn o.value n
    (Some p.1, p.2)
  else (o, n)

/-- `Result.Map` with an effectful callback threading a call counter: same
control flow as the source, where `fn` is run only in the Ok branch. -/
def Result.MapTraced {T : Type} (r : Result T) (fn : T → Nat → T × Nat)
    (n : Nat) : Result T × Nat :=
  if r.err == GoError.nil then
    let p := fn r.value n
    (Ok p.1, p.2)
  else (r, n)

end fp

namespace slices

/-- `FilterMapTuple`: appends `mapped` for each element where the
predicate returns `ok == true`, in input order. -/
def FilterMapTuple {T U : Type} (arr : List T) (predicate : T → U × Bool) : List U :=
  arr.foldl
    (fun res x =>
      let p := predicate x
      if p.2 then res ++ [p.1] else res)
    []

/-- `FilterMap`: `FilterMapTuple` over the predicate composed with
`Option.Unwrap`. -/
def FilterMap {T U : Type} (arr : List T) (predicate : T → fp.Option U) : List U :=
  FilterMapTuple arr (fun t => (predicate t).Unwrap)

end slices

/-- C1: for every value v, Some(v).IsSome() is true, Some(v).IsNone() is
false, Some(v).Unwrap() returns (v, true), and None().Unwrap() returns
(zero value of T, false). -/
theorem c1_some_none_basic (T : Type) [Inhabited T] (v : T) :
    (fp.Some v).IsSome = true ∧ (fp.Some v).IsNone = false ∧
      (fp.Some v).Unwrap = (v, true) ∧
      (fp.None T).Unwrap = ((default : T), false) :=
  ⟨rfl, rfl, rfl, rfl⟩

/-- Witness for C1 at T = Int, v = 3. -/
theorem c1_some_none_basic_witness :
    (fp.Some (3 : Int)).IsSome = true ∧ (fp.Some (3 : Int)).IsNone = false ∧
      (fp.Some (3 : Int)).Unwrap = (3, true) ∧
      (fp.None Int).Unwrap = ((default : Int), false) :=
  c1_some_none_basic Int 3

/-- C2 counterexample: `Err(nil)` is NOT in the failure state: its
IsErr() is false and IsOk() is true, refuting the claim at e = nil. -/
theorem c2_counterexample :
    (fp.Err Int GoError.nil).IsErr = false ∧ (fp.Err Int GoError.nil).IsOk = true :=
  ⟨rfl, rfl⟩

/-- C2 (amended): for every NON-NIL error e, Err(e) is in the failure
state (IsErr() true, IsOk() false) and its value slot holds T's zero
value; Err(nil) instead produces an Ok-state Result. -/
theorem c2_err_state (T : Type) [Inhabited T] (msg : String) :
    (fp.Err T (GoError.mk msg)).IsErr = true ∧
      (fp.Err T (GoError.mk msg)).IsOk = false ∧
      (fp.Err T (GoError.mk msg)).value = (default : T) :=
  ⟨rfl, rfl, rfl⟩

/-- Witness for C2 (amended) at T = Int, msg = "boom". -/
theorem c2_err_state_witness :
    (fp.Err Int (GoError.mk "boom")).IsErr = true ∧
      (fp.Err Int (GoError.mk "boom")).IsOk = false ∧
      (fp.Err Int (GoError.mk "boom")).value = (default : Int) :=
  c2_err_state Int "boom"

/-- C3: Result.MapOr and Result.MapOrElse always return a Result whose
IsOk() is true, whatever the receiver's state; in particular
Err(e).MapOr(1, fn).Unwrap() yields (1, nil) for any non-nil error e. -/
theorem c3_mapor_always_ok (T : Type) (r : fp.Result T) (d : T) (f : T → T)
    (he : GoError → T) (ho : T → T) :
    (r.MapOr d f).IsOk = true ∧ (r.MapOrElse he ho).IsOk = true ∧
      ∀ (msg : String) (g : Int → Int),
        ((fp.Err Int (GoError.mk msg)).MapOr 1 g).Unwrap = (1, GoError.nil) := by
  obtain ⟨v, e⟩ := r
  cases e <;> exact ⟨rfl, rfl, fun msg g => rfl⟩

/-- Witness for C3 at T = Int with an Err receiver. -/
theorem c3_mapor_always_ok_witness :
    ((fp.Err Int (GoError.mk "e")).MapOr 2 (fun x => x + 1)).IsOk = true ∧
      ((fp.Err Int (GoError.mk "e")).MapOrElse (fun _ => 0) (fun x => x)).IsOk = true ∧
      ∀ (msg : String) (g : Int → Int),
        ((fp.Err Int (GoError.mk msg)).MapOr 1 g).Unwrap = (1, GoError.nil) :=
  c3_mapor_always_ok Int (fp.Err Int (GoError.mk "e")) 2 (fun x => x + 1)
    (fun _ => 0) (fun x => x)

/-- C4: Result.UnwrapUnsafe returns the contained value on EVERY Ok-state
receiver (in particular Ok(1).UnwrapUnsafe() == 1) and panics on every
Err-state receiver with a message containing the stored error's text;
Option.UnwrapUnsafe returns the value on every Some and panics on every
None-state receiver. -/
theorem c4_unwrap_fatal (T : Type) [Inhabited T] (r w : fp.Result T)
    (o : fp.Option T) (v : T) (msg : String) :
    (r.err = GoError.nil → fp.Result.UnwrapUnsafe r = Except.ok r.value) ∧
      fp.Result.UnwrapUnsafe (fp.Ok (1 : Int)) = Except.ok 1 ∧
      (w.err = GoError.mk msg →
        ∃ pre post, fp.Result.UnwrapUnsafe w = Except.error (pre ++ msg ++ post)) ∧
      fp.Option.UnwrapUnsafe (fp.Some v) = Except.ok v ∧
      (o.isSome = false →
        fp.Option.UnwrapUnsafe o = Except.error ("option is none")) ∧
      fp.Option.UnwrapUnsafe (fp.None T) = Except.error ("option is none") := by
  refine ⟨?_, rfl, ?_, rfl, ?_, rfl⟩
  · obtain ⟨a, e⟩ := r
    intro h
    subst h
    rfl
  · obtain ⟨b, e⟩ := w
    intro h
    subst h
    exact ⟨"result is error: ", "", by simp [fp.Result.UnwrapUnsafe]⟩
  · obtain ⟨c, s⟩ := o
    intro h
    subst h
    rfl

/-- Witness for C4 at T = Int: Ok(5) as the Ok receiver, Err("boom") as
the Err receiver, None as the None receiver, v = 5. -/
theorem c4_unwrap_fatal_witness :
    fp.Result.UnwrapUnsafe (fp.Ok (5 : Int)) = Except.ok 5 ∧
      fp.Result.UnwrapUnsafe (fp.Ok (1 : Int)) = Except.ok 1 ∧
      (∃ pre post, fp.Result.UnwrapUnsafe (fp.Err Int (GoError.mk "boom"))
          = Except.error (pre ++ "boom" ++ post)) ∧
      fp.Option.UnwrapUnsafe (fp.Some (5 : Int)) = Except.ok 5 ∧
      fp.Option.UnwrapUnsafe (fp.None Int) = Except.error ("option is none") := by
  have h := c4_unwrap_fatal Int (fp.Ok (5 : Int)) (fp.Err Int (GoError.mk "boom"))
    (fp.None Int) 5 "boom"
  exact ⟨h.1 rfl, h.2.1, h.2.2.1 rfl, h.2.2.2.1, h.2.2.2.2.1 rfl⟩

/-- C5 counterexample: None().OkOr(nil) is structurally Err(nil) but is
NOT in the Err state: its IsErr() is false, refuting the claim's "in the
Err state" reading at err = nil. -/
theorem c5_counterexample : ((fp.None Int).OkOr GoError.nil).IsErr = false :=
  rfl

/-- C5 (amended): Some(v).OkOr(err) equals Ok(v) and None().OkOr(err)
equals Err(err) exactly, for every err; for NON-NIL err that Result is in
the Err state carrying err, while for err = nil it is in the Ok state. -/
theorem c5_okor (T : Type) [Inhabited T] (v : T) (e : GoError) :
    (fp.Some v).OkOr e = fp.Ok v ∧ (fp.None T).OkOr e = fp.Err T e ∧
      ∀ msg : String,
        ((fp.None T).OkOr (GoError.mk msg)).IsErr = true ∧
          ((fp.None T).OkOr (GoError.mk msg)).err = GoError.mk msg :=
  ⟨rfl, rfl, fun _ => ⟨rfl, rfl⟩⟩

/-- Witness for C5 (amended) at T = Int, v = 7, e = nil. -/
theorem c5_okor_witness :
    (fp.Some (7 : Int)).OkOr GoError.nil = fp.Ok 7 ∧
      (fp.None Int).OkOr GoError.nil = fp.Err Int GoError.nil ∧
      ∀ msg : String,
        ((fp.None Int).OkOr (GoError.mk msg)).IsErr = true ∧
          ((fp.None Int).OkOr (GoError.mk msg)).err = GoError.mk msg :=
  c5_okor Int 7 GoError.nil

/-- C6: with a counting test double, UnwrapOrElse invokes the producer
exactly once and returns its result when the container is absent/error,
and returns the contained value with zero producer invocations when it is
present/ok; the traced run agrees with the pure UnwrapOrElse. -/
theorem c6_unwraporelse_lazy (T : Type) (o : fp.Option T) (r : fp.Result T)
    (p q : Unit → T) :
    (o.isSome = true → o.UnwrapOrElseTraced (fp.traceCall p) 0 = (o.value, 0)) ∧
      (o.isSome = false → o.UnwrapOrElseTraced (fp.traceCall p) 0 = (p (), 1)) ∧
      (o.UnwrapOrElseTraced (fp.traceCall p) 0).1 = o.UnwrapOrElse p ∧
      (r.err = GoError.nil → r.UnwrapOrElseTraced (fp.traceCall q) 0 = (r.value, 0)) ∧
      (r.err ≠ GoError.nil → r.UnwrapOrElseTraced (fp.traceCall q) 0 = (q (), 1)) ∧
      (r.UnwrapOrElseTraced (fp.traceCall q) 0).1 = r.UnwrapOrElse q := by
  obtain ⟨v, s⟩ := o
  obtain ⟨w, e⟩ := r
  cases s <;> cases e <;>
    simp [fp.Option.UnwrapOrElseTraced, fp.Option.UnwrapOrElse,
      fp.Result.UnwrapOrElseTraced, fp.Result.UnwrapOrElse, fp.traceCall]

/-- Witness for C6: a Some receiver yields (value, 0 calls); an Err
receiver yields (producer result, 1 call). -/
theorem c6_unwraporelse_lazy_witness :
    fp.Option.UnwrapOrElseTraced (fp.Some (5 : Int))
        (fp.traceCall (fun _ => (7 : Int))) 0 = (5, 0) ∧
      fp.Result.UnwrapOrElseTraced (fp.Err Int (GoError.mk "e"))
        (fp.traceCall (fun _ => (9 : Int))) 0 = (9, 1) := by
  have h := c6_unwraporelse_lazy Int (fp.Some 5) (fp.Err Int (GoError.mk "e"))
    (fun _ => 7) (fun _ => 9)
  exact ⟨h.1 rfl, h.2.2.2.2.1 (by decide)⟩

/-- C7: with a counting test double, Map on a None option returns the
receiver unchanged with zero callback invocations, and Map on an Err
result returns the receiver unchanged (same error, same value slot) with
zero callback invocations; the traced run agrees with the pure Map. -/
theorem c7_map_frame (T : Type) (o : fp.Option T) (r : fp.Result T) (f g : T → T) :
    (o.isSome = false → o.MapTraced (fp.traceCall1 f) 0 = (o, 0)) ∧
      (o.MapTraced (fp.traceCall1 f) 0).1 = o.Map f ∧
      (r.err ≠ GoError.nil → r.MapTraced (fp.traceCall1 g) 0 = (r, 0)) ∧
      (r.MapTraced (fp.traceCall1 g) 0).1 = r.Map g := by
  obtain ⟨v, s⟩ := o
  obtain ⟨w, e⟩ := r
  cases s <;> cases e <;>
    simp [fp.Option.MapTraced, fp.Option.Map, fp.Result.MapTraced,
      fp.Result.Map, fp.traceCall1]

/-- Witness for C7: Map over None and over Err("e") leaves each container
unchanged with zero callback invocations. -/
theorem c7_map_frame_witness :
    fp.Option.MapTraced (fp.None Int) (fp.traceCall1 (fun x => x + 1)) 0
        = (fp.None Int, 0) ∧
      fp.Result.MapTraced (fp.Err Int (GoError.mk "e"))
        (fp.traceCall1 (fun x => x * 2)) 0 = (fp.Err Int (GoError.mk "e"), 0) := by
  have h := c7_map_frame Int (fp.None Int) (fp.Err Int (GoError.mk "e"))
    (fun x => x + 1) (fun x => x * 2)
  exact ⟨h.1 rfl, h.2.2.1 (by decide)⟩

/-- C8: FilterMap over [1, 2, 3] with the predicate returning Some(x*x)
for even x and None() otherwise yields exactly [4]. -/
theorem c8_filtermap_even_squares :
    slices.FilterMap [1, 2, 3]
      (fun x : Int => if x % 2 == 0 then fp.Some (x * x) else fp.None Int) = [4] := by
  rfl

/-- C9: the zero value of the Option struct is a valid None state, with
IsNone() true, IsSome() false, Unwrap() = (zero of T, false), and None()
returns exactly this zero value. -/
theorem c9_option_zero_is_none (T : Type) [Inhabited T] :
    (fp.Option.zeroValue T).IsNone = true ∧
      (fp.Option.zeroValue T).IsSome = false ∧
      (fp.Option.zeroValue T).Unwrap = ((default : T), false) ∧
      fp.None T = fp.Option.zeroValue T :=
  ⟨rfl, rfl, rfl, rfl⟩

/-- Witness for C9 at T = Int. -/
theorem c9_option_zero_is_none_witness :
    (fp.Option.zeroValue Int).IsNone = true ∧
      (fp.Option.zeroValue Int).IsSome = false ∧
      (fp.Option.zeroValue Int).Unwrap = ((default : Int), false) ∧
      fp.None Int = fp.Option.zeroValue Int :=
  c9_option_zero_is_none Int

/-- C10: the zero value of the Result struct is a valid Ok state, with
IsOk() true, IsErr() false, Unwrap() = (zero of T, nil); OkZero() and the
OkAny variable are exactly this zero value. -/
theorem c10_result_zero_is_ok (T : Type) [Inhabited T] :
    (fp.Result.zeroValue T).IsOk = true ∧
      (fp.Result.zeroValue T).IsErr = false ∧
      (fp.Result.zeroValue T).Unwrap = ((default : T), GoError.nil) ∧
      fp.OkZero T = fp.Result.zeroValue T ∧
      fp.OkAny = fp.Result.zeroValue GoAny :=
  ⟨rfl, rfl, rfl, rfl, rfl⟩

/-- Witness for C10 at T = Int. -/
theorem c10_result_zero_is_ok_witness :
    (fp.Result.zeroValue Int).IsOk = true ∧
      (fp.Result.zeroValue Int).IsErr = false ∧
      (fp.Result.zeroValue Int).Unwrap = ((default : Int), GoError.nil) ∧
      fp.OkZero Int = fp.Result.zeroValue Int ∧
      fp.OkAny = fp.Result.zeroValue GoAny :=
  c10_result_zero_is_ok Int
